import Mathlib

/-!
Verification development for the Amulet-Map-Editor excerpt.

The two source files embedded here are:
* `amulet_map_editor/programs/__init__.py` — the plugin loader
  (`load_extensions`), the tabbed world manager (`WorldManagerUI`) and the
  fixed `AboutExtension`;
* `amulet_map_editor/amulet_wx/world_manager/extensions/amulet_renderer/operations/fill.py`
  — the `Fill` operation plugin (`show_ui` and its `export` mapping).

Python objects are embedded shallowly: a plugin class becomes a record of
the facts the loader inspects (its `issubclass` relations and whether its
constructor raises), a module becomes an optional `export` mapping, and the
loader's catchable exceptions become an explicit `Except`/`Option PyError`
result.  GUI side effects (widget creation, `Destroy`, page insertion,
event binding, `close` calls) are recorded as explicit event lists so that
ordering and multiplicity can be stated.
-/

namespace AmuletMapEditor

/-- A Python exception as far as this code distinguishes them:
`LoaderNoneMatched` (caught specially in `WorldManagerUI.__init__`)
versus any other exception, carried with its message. -/
inductive PyError where
  | loaderNoneMatched (msg : String)
  | exc (msg : String)
deriving DecidableEq, Repr

/-- A Python class object, reduced to the facts the loader code inspects:
whether it is a subclass of `BaseWorldProgram`, whether it is a subclass of
`wx.Window`, and whether calling it (instantiating the extension inside
`WorldManagerUI._load_extensions`) raises. -/
structure PluginClass where
  subclassOfBaseWorldProgram : Bool
  subclassOfWxWindow : Bool
  ctorRaises : Bool
deriving DecidableEq, Repr

/-- The value bound to the key `'ui'` of an `export` mapping: either a class
object or any non-class value (on which Python's `issubclass` raises
`TypeError`). -/
inductive UiVal where
  | cls (c : PluginClass)
  | notClass
deriving DecidableEq, Repr

/-- An `export` mapping of a module in the `programs` package, restricted to
the keys that the plugin contract mentions.  `none` in a field means the key
is absent from the dict.  For `operation` / `inputs` / `wxoptions` only
presence matters to the loader, so they are presence markers. -/
structure ExportMap where
  v : Option Int
  name : Option String
  ui : Option UiVal
  operation : Option Unit
  inputs : Option Unit
  wxoptions : Option Unit
deriving DecidableEq, Repr

/-- A successfully imported Python module: `exp` is `some e` exactly when
`hasattr(module, 'export')`, in which case `getattr(module, 'export')` is
`e`. -/
structure PyModule where
  exp : Option ExportMap
deriving DecidableEq, Repr

/-- One module discovered by `pkgutil.iter_modules`: importing it with
`importlib.import_module` either raises or yields a module object. -/
inductive ModuleLoad where
  | importRaises (msg : String)
  | loaded (m : PyModule)
deriving DecidableEq, Repr

/-- An entry of the `_extensions` registry: `(name, class)`. -/
abbrev Entry := String × PluginClass

/-- The body of the loop of `load_extensions` for one imported module:

```python
if hasattr(module, 'export'):
    export = getattr(module, 'export')
    if 'ui' in export and issubclass(export['ui'], BaseWorldProgram) \
            and issubclass(export['ui'], wx.Window):
        _extensions.append((export.get('name', 'missingno'), export['ui']))
```

Returns `.ok (some entry)` when the module is appended to the registry,
`.ok none` when it is skipped, and `.error _` when `issubclass` raises
(the `'ui'` value is not a class).  Python's `and` short-circuits, which the
nested match reproduces. -/
def processModule (m : PyModule) : Except PyError (Option Entry) :=
  match m.exp with
  | none => .ok none
  | some e =>
    match e.ui with
    | none => .ok none
    | some UiVal.notClass =>
        .error (.exc "TypeError: issubclass() arg 1 must be a class")
    | some (UiVal.cls c) =>
        if c.subclassOfBaseWorldProgram && c.subclassOfWxWindow then
          .ok (some (e.name.getD "missingno", c))
        else
          .ok none

/-- The discovery loop of `load_extensions`, with the mutable global
`_extensions` passed as the accumulator `acc`.  An exception (whether from
the import itself or from `issubclass`) is NOT caught inside `load_extensions`:
the loop stops, leaving the entries appended so far in the registry, and the
exception propagates (`some err` in the result). -/
def loadModulesAcc (acc : List Entry) : List ModuleLoad → List Entry × Option PyError
  | [] => (acc, none)
  | ModuleLoad.importRaises msg :: _ => (acc, some (.exc msg))
  | ModuleLoad.loaded m :: rest =>
    match processModule m with
    | .error e => (acc, some e)
    | .ok none => loadModulesAcc acc rest
    | .ok (some entry) => loadModulesAcc (acc ++ [entry]) rest

/-- `load_extensions()`: runs only when the global `_extensions` list (`cur`)
is empty; it first extends the registry with `_fixed_extensions` (`fixed`),
then iterates over the discovered modules.  Returns the new registry and the
propagating exception, if any. -/
def load_extensions (fixed : List Entry) (mods : List ModuleLoad)
    (cur : List Entry) : List Entry × Option PyError :=
  if cur.isEmpty then loadModulesAcc (cur ++ fixed) mods
  else (cur, none)

/-- The `AboutExtension` class: subclasses `SimplePanel` (a `wx.Window`) and
`BaseWorldProgram`; its constructor only builds widgets and does not raise. -/
def AboutExtension : PluginClass :=
  { subclassOfBaseWorldProgram := true
    subclassOfWxWindow := true
    ctorRaises := false }

/-- `_fixed_extensions` after module import: `[("About", AboutExtension)]`. -/
def fixed_extensions : List Entry := [("About", AboutExtension)]

/-- Registry entries produced by the discovery loop before its first
uncaught exception (all of them when no exception occurs). -/
def collectEntries : List ModuleLoad → List Entry
  | [] => []
  | ModuleLoad.importRaises _ :: _ => []
  | ModuleLoad.loaded m :: rest =>
    match processModule m with
    | .error _ => []
    | .ok none => collectEntries rest
    | .ok (some entry) => entry :: collectEntries rest

/-- The first exception the discovery loop hits, if any. -/
def firstLoadError : List ModuleLoad → Option PyError
  | [] => none
  | ModuleLoad.importRaises msg :: _ => some (.exc msg)
  | ModuleLoad.loaded m :: rest =>
    match processModule m with
    | .error e => some e
    | .ok _ => firstLoadError rest

theorem loadModulesAcc_eq (mods : List ModuleLoad) :
    ∀ acc : List Entry,
      loadModulesAcc acc mods = (acc ++ collectEntries mods, firstLoadError mods) := by
  induction mods with
  | nil => intro acc; simp [loadModulesAcc, collectEntries, firstLoadError]
  | cons hd tl ih =>
    intro acc
    cases hd with
    | importRaises msg =>
        simp [loadModulesAcc, collectEntries, firstLoadError]
    | loaded m =>
        cases hpm : processModule m with
        | error e =>
            simp [loadModulesAcc, collectEntries, firstLoadError, hpm]
        | ok o =>
            cases o with
            | none =>
                simp [loadModulesAcc, collectEntries, firstLoadError, hpm, ih]
            | some entry =>
                simp [loadModulesAcc, collectEntries, firstLoadError, hpm, ih]

/-- One instantiated extension inside a `WorldManagerUI`.  `id` models
Python object identity: the position of the entry in the registry at the
time `extension(self, self.world, self._close_self_callback)` was called,
so distinct instances carry distinct ids. -/
structure ExtInst where
  id : Nat
  name : String
  cls : PluginClass
deriving DecidableEq, Repr

/-- One call `self.AddPage(ext, extension_name, select)`. -/
structure PageInfo where
  extId : Nat
  title : String
  select : Bool
deriving DecidableEq, Repr

/-- The observable outcome of `WorldManagerUI._load_extensions`:
`self._extensions` (the instances, in order), the notebook pages added, and
the messages passed to `log.exception`. -/
structure LoadedUI where
  exts : List ExtInst
  pages : List PageInfo
  logs : List String
deriving DecidableEq, Repr

/-- The loop of `WorldManagerUI._load_extensions`:

```python
select = True
for extension_name, extension in _extensions:
    try:
        ext = extension(self, self.world, self._close_self_callback)
        self._extensions.append(ext)
        self.AddPage(ext, extension_name, select)
        select = False
    except Exception as e:
        log.exception(f'Failed to load extension ...')
        continue
```

`idx` numbers the registry entries (modelling instance identity), `select`
is the loop's flag: it is passed to `AddPage` and cleared only after a
successful instantiation. -/
def wm_load_go (idx : Nat) (select : Bool) : List Entry → LoadedUI
  | [] => { exts := [], pages := [], logs := [] }
  | (n, c) :: rest =>
    if c.ctorRaises then
      let r := wm_load_go (idx + 1) select rest
      { r with logs := ("Failed to load extension " ++ n) :: r.logs }
    else
      let r := wm_load_go (idx + 1) false rest
      { exts := { id := idx, name := n, cls := c } :: r.exts
        pages := { extId := idx, title := n, select := select } :: r.pages
        logs := r.logs }

/-- `WorldManagerUI._load_extensions`, applied to the registry produced by
the preceding `load_extensions()` call. -/
def WorldManagerUI_load_extensions (registry : List Entry) : LoadedUI :=
  wm_load_go 0 true registry

theorem wm_load_go_exts_filter (registry : List Entry) :
    ∀ idx select,
      (wm_load_go idx select registry).exts.map (fun e => (e.name, e.cls)) =
        registry.filter (fun p => !p.2.ctorRaises) := by
  induction registry with
  | nil => intro idx select; simp [wm_load_go]
  | cons hd tl ih =>
    intro idx select
    obtain ⟨n, c⟩ := hd
    by_cases hc : c.ctorRaises
    · simp [wm_load_go, hc, List.filter_cons, ih]
    · simp [wm_load_go, hc, List.filter_cons, ih]

theorem wm_load_go_pages_titles (registry : List Entry) :
    ∀ idx select,
      (wm_load_go idx select registry).pages.map (fun p => p.title) =
        (registry.filter (fun p => !p.2.ctorRaises)).map Prod.fst := by
  induction registry with
  | nil => intro idx select; simp [wm_load_go]
  | cons hd tl ih =>
    intro idx select
    obtain ⟨n, c⟩ := hd
    by_cases hc : c.ctorRaises
    · simp [wm_load_go, hc, List.filter_cons, ih]
    · simp [wm_load_go, hc, List.filter_cons, ih]

theorem wm_load_go_logs (registry : List Entry) :
    ∀ idx select,
      (wm_load_go idx select registry).logs =
        (registry.filter (fun p => p.2.ctorRaises)).map
          (fun p => "Failed to load extension " ++ p.1) := by
  induction registry with
  | nil => intro idx select; simp [wm_load_go]
  | cons hd tl ih =>
    intro idx select
    obtain ⟨n, c⟩ := hd
    by_cases hc : c.ctorRaises
    · simp [wm_load_go, hc, List.filter_cons, ih]
    · simp [wm_load_go, hc, List.filter_cons, ih]

theorem wm_load_go_ids_ge (registry : List Entry) :
    ∀ idx select, ∀ e ∈ (wm_load_go idx select registry).exts, idx ≤ e.id := by
  induction registry with
  | nil => intro idx select e he; simp [wm_load_go] at he
  | cons hd tl ih =>
    intro idx select e he
    obtain ⟨n, c⟩ := hd
    by_cases hc : c.ctorRaises
    · simp [wm_load_go, hc] at he
      exact Nat.le_of_succ_le (ih (idx + 1) select e he)
    · simp [wm_load_go, hc] at he
      rcases he with he | he
      · simp [he]
      · exact Nat.le_of_succ_le (ih (idx + 1) false e he)

theorem wm_load_go_ids_nodup (registry : List Entry) :
    ∀ idx select, ((wm_load_go idx select registry).exts.map ExtInst.id).Nodup := by
  induction registry with
  | nil => intro idx select; simp [wm_load_go]
  | cons hd tl ih =>
    intro idx select
    obtain ⟨n, c⟩ := hd
    by_cases hc : c.ctorRaises
    · simpa [wm_load_go, hc] using ih (idx + 1) select
    · have hmain : (wm_load_go idx select ((n, c) :: tl)).exts =
          { id := idx, name := n, cls := c } :: (wm_load_go (idx + 1) false tl).exts := by
        simp [wm_load_go, hc]
      rw [hmain, List.map_cons, List.nodup_cons]
      refine ⟨?_, ih (idx + 1) false⟩
      intro hmem
      rcases List.mem_map.mp hmem with ⟨e, he, hid⟩
      have := wm_load_go_ids_ge tl (idx + 1) false e he
      simp only at hid
      omega

/-- An observable step of `WorldManagerUI.close`: `ext.close()` on the
instance with the given id, or `self.world.close()`. -/
inductive CloseEvent where
  | extClose (id : Nat)
  | worldClose
deriving DecidableEq, Repr

/-- `WorldManagerUI.close`:

```python
for ext in self._extensions:
    ext.close()
self.world.close()
```

recorded as the list of calls it makes, in order. -/
def WorldManagerUI_close (exts : List ExtInst) : List CloseEvent :=
  exts.map (fun e => CloseEvent.extClose e.id) ++ [CloseEvent.worldClose]

/-- `amulet.api.block.Block(namespace, base_name, properties)`. -/
structure Block where
  namespace_ : String
  base_name : String
  properties : List (String × String)
deriving DecidableEq, Repr

/-- A value stored in a Python options dict. -/
inductive PyVal where
  | block (b : Block)
  | str (s : String)
  | num (n : Int)
deriving DecidableEq, Repr

/-- A Python dict, as the list of its key/value pairs. -/
abbrev PyDict := List (String × PyVal)

/-- The object returned by `translation_manager.get_version(p, v).block`:
what `show_ui` uses of it is its `to_universal` conversion. -/
structure VersionTranslator where
  to_universal : Block → Block

/-- `world.world_wrapper.translation_manager`. -/
structure TranslationManager where
  get_version : String → List Nat → VersionTranslator

/-- `world.world_wrapper`. -/
structure WorldWrapper where
  world_name : String
  translation_manager : TranslationManager

/-- An open world handle from `amulet.world_interface.load_world`. -/
structure World where
  world_wrapper : WorldWrapper

/-- The state of the `BlockDefine` widget when the dialog closes: the
platform / version / namespace / base-name / properties the user picked. -/
structure BlockDefine where
  platform : String
  version : List Nat
  namespace_ : String
  base_name : String
  properties : List (String × String)

/-- `wx.ID_OK`, the value `ShowModal()` returns when the dialog is
confirmed with OK. -/
def wx_ID_OK : Int := 5100

/-- `show_ui` from the Fill operation module:

```python
def show_ui(parent, world, options):
    dialog = SimpleDialog(parent, 'Fill')
    block_define = BlockDefine(dialog.custom_panel, ...)
    dialog.custom_panel.add_object(block_define)
    if dialog.ShowModal() == wx.ID_OK:
        options = {'fill_block': tm.get_version(bd.platform, bd.version)
                                   .block.to_universal(Block(bd.namespace, bd.base_name, bd.properties))}
    return options
```

The dialog interaction is abstracted into its two observable outputs: the
integer `ShowModal()` returned (`modalResult`) and the `BlockDefine` state
at that moment. -/
def show_ui (modalResult : Int) (world : World) (block_define : BlockDefine)
    (options : PyDict) : PyDict :=
  if modalResult = wx_ID_OK then
    [("fill_block",
      PyVal.block
        ((world.world_wrapper.translation_manager.get_version
            block_define.platform block_define.version).to_universal
          { namespace_ := block_define.namespace_
            base_name := block_define.base_name
            properties := block_define.properties }))]
  else options

/-- `from amulet.operations.fill import fill`: the external fill algorithm,
present here only as an opaque reference. -/
inductive ExternalOperation where
  | amulet_operations_fill_fill
deriving DecidableEq, Repr

/-- The name `fill` as bound in the Fill module by its import. -/
def fill : ExternalOperation := ExternalOperation.amulet_operations_fill_fill

/-- The `export` dict of the Fill operation module, field per key. -/
structure FillExportMap where
  v : Int
  name : String
  operation : ExternalOperation
  inputs : List String
  wxoptions : Int → World → BlockDefine → PyDict → PyDict

/-- ```python
export = {
    "v": 1,
    "name": "Fill",
    "operation": fill,
    "inputs": ["src_box", "wxoptions"],
    "wxoptions": show_ui
}
``` -/
def fill_export : FillExportMap :=
  { v := 1
    name := "Fill"
    operation := fill
    inputs := ["src_box", "wxoptions"]
    wxoptions := show_ui }

/-- An observable step of `WorldManagerUI.__init__`, in program order. -/
inductive InitEvent where
  | superInit
  | destroyCall
  | loadExtensionsCall
  | bindPageChanged
deriving DecidableEq, Repr

/-- The fields of a fully constructed `WorldManagerUI`. -/
structure WMUIState where
  path : String
  world : World
  world_name : String
  ui : LoadedUI
  last_extension : Int

/-- What a call to `WorldManagerUI.__init__` leaves behind: the ordered
effects it performed, its result (the constructed object or the propagating
exception), and whether a world handle is left open. -/
structure InitOutcome where
  events : List InitEvent
  result : Except PyError WMUIState
  worldOpen : Bool

/-- `WorldManagerUI.__init__`:

```python
super().__init__(parent, style=wx.NB_LEFT)
self._path = path
self._close_self_callback = close_self_callback
try:
    self.world = world_interface.load_world(path)
except LoaderNoneMatched as e:
    self.Destroy()
    raise e
self.world_name = self.world.world_wrapper.world_name
self._extensions = []
self._last_extension = -1
self._load_extensions()
self.Bind(wx.EVT_NOTEBOOK_PAGE_CHANGED, self._page_change)
```

`loadWorldResult` is the outcome of `world_interface.load_world(path)`
(external library); `registry` is the plugin registry that the
`load_extensions()` call inside `_load_extensions` yields.  Only
`LoaderNoneMatched` is caught (and re-raised after `Destroy`); any other
exception propagates without the `Destroy` call. -/
def WorldManagerUI_init (path : String) (loadWorldResult : Except PyError World)
    (registry : List Entry) : InitOutcome :=
  match loadWorldResult with
  | .error (PyError.loaderNoneMatched msg) =>
      { events := [InitEvent.superInit, InitEvent.destroyCall]
        result := .error (PyError.loaderNoneMatched msg)
        worldOpen := false }
  | .error e =>
      { events := [InitEvent.superInit]
        result := .error e
        worldOpen := false }
  | .ok w =>
      { events := [InitEvent.superInit, InitEvent.loadExtensionsCall,
                   InitEvent.bindPageChanged]
        result := .ok
          { path := path
            world := w
            world_name := w.world_wrapper.world_name
            ui := WorldManagerUI_load_extensions registry
            last_extension := -1 }
        worldOpen := true }

/-- A class that satisfies every check of the loader and whose constructor
succeeds. -/
def samplePluginClass : PluginClass :=
  { subclassOfBaseWorldProgram := true
    subclassOfWxWindow := true
    ctorRaises := false }

/-- A class the loader accepts but whose constructor raises. -/
def raisingPluginClass : PluginClass :=
  { subclassOfBaseWorldProgram := true
    subclassOfWxWindow := true
    ctorRaises := true }

/-- An `export` dict that lacks the keys `v`, `name`, `operation` and
`inputs`, and holds only a valid `ui` class. -/
def export_missing_v_name : ExportMap :=
  { v := none, name := none, ui := some (UiVal.cls samplePluginClass)
    operation := none, inputs := none, wxoptions := none }

/-- A module whose `export` dict is `export_missing_v_name`. -/
def module_missing_v_name : PyModule := { exp := some export_missing_v_name }

/-- Claim C1 (counterexample): a discovered module whose `export` lacks the
required keys `v` and `name` (and has no `operation`/`inputs` either) is
nevertheless added to the plugin registry, under the default name
`'missingno'` — refuting "a module whose export lacks any required key is
not registered". -/
theorem load_extensions_registers_module_without_v_or_name :
    export_missing_v_name.v = none ∧
    export_missing_v_name.name = none ∧
    export_missing_v_name.operation = none ∧
    export_missing_v_name.inputs = none ∧
    processModule module_missing_v_name =
      Except.ok (some ("missingno", samplePluginClass)) ∧
    (load_extensions fixed_extensions
        [ModuleLoad.loaded module_missing_v_name] []).1 =
      [("About", AboutExtension), ("missingno", samplePluginClass)] :=
  ⟨rfl, rfl, rfl, rfl, rfl, rfl⟩

/-- Claim C1 (amended): the loader adds a discovered module to the plugin
registry if and only if its `export` mapping contains the key `ui` bound to
a class that subclasses both `BaseWorldProgram` and `wx.Window`; the keys
`v`, `name`, `operation` and `inputs` are never checked, and a missing
`name` defaults to `'missingno'`. -/
theorem load_extensions_registration_iff_valid_ui
    (m : PyModule) (n : String) (c : PluginClass) :
    processModule m = Except.ok (some (n, c)) ↔
      ∃ e, m.exp = some e ∧ e.ui = some (UiVal.cls c) ∧
        c.subclassOfBaseWorldProgram = true ∧ c.subclassOfWxWindow = true ∧
        n = e.name.getD "missingno" := by
  obtain ⟨exp⟩ := m
  cases exp with
  | none => simp [processModule]
  | some e =>
    cases hui : e.ui with
    | none => simp [processModule, hui]
    | some uv =>
      cases uv with
      | notClass => simp [processModule, hui]
      | cls c2 =>
        by_cases hb : c2.subclassOfBaseWorldProgram && c2.subclassOfWxWindow
        · rcases Bool.and_eq_true_iff.mp hb with ⟨hb1, hb2⟩
          simp [processModule, hui, hb]
          constructor
          · rintro ⟨hn, rfl⟩
            exact ⟨rfl, hb1, hb2, hn.symm⟩
          · rintro ⟨rfl, _, _, hn⟩
            exact ⟨hn.symm, rfl⟩
        · simp [processModule, hui, hb]
          rintro rfl h1 h2
          exact absurd (by simp [h1, h2]) hb

/-- A module that imports fine and satisfies every loader check. -/
def good_module : PyModule :=
  { exp := some
      { v := some 1, name := some "Good"
        ui := some (UiVal.cls samplePluginClass)
        operation := none, inputs := none, wxoptions := none } }

/-- Claim C2 (counterexample): an exception raised while importing a plugin
module is NOT caught by `load_extensions`: it propagates out of the loader,
and the loadable module listed after it is not registered either — refuting
"the failure is caught per-plugin and logged ... while loading of the
remaining plugins continues". -/
theorem import_failure_propagates_and_aborts_loading :
    processModule good_module = Except.ok (some ("Good", samplePluginClass)) ∧
    load_extensions fixed_extensions
        [ModuleLoad.importRaises "ImportError: boom",
         ModuleLoad.loaded good_module] [] =
      ([("About", AboutExtension)], some (PyError.exc "ImportError: boom")) :=
  ⟨rfl, rfl⟩

/-- Claim C2 (amended): a plugin whose constructor raises during
instantiation in `WorldManagerUI._load_extensions` is caught per-plugin and
logged, that plugin alone being omitted while the remaining registry
entries are still instantiated — but an exception raised while importing a
plugin module propagates out of `load_extensions` uncaught and aborts
discovery of the remaining modules. -/
theorem ctor_failures_caught_import_failures_propagate :
    (∀ registry : List Entry,
        (WorldManagerUI_load_extensions registry).exts.map (fun e => (e.name, e.cls)) =
          registry.filter (fun p => !p.2.ctorRaises) ∧
        (WorldManagerUI_load_extensions registry).logs =
          (registry.filter (fun p => p.2.ctorRaises)).map
            (fun p => "Failed to load extension " ++ p.1)) ∧
    (∀ (acc : List Entry) (msg : String) (rest : List ModuleLoad),
        loadModulesAcc acc (ModuleLoad.importRaises msg :: rest) =
          (acc, some (PyError.exc msg))) :=
  ⟨fun registry =>
      ⟨wm_load_go_exts_filter registry 0 true, wm_load_go_logs registry 0 true⟩,
   fun _ _ _ => rfl⟩

/-- Claim C3: in `WorldManagerUI._load_extensions`, every registry entry
whose constructor raises is logged and excluded from both the instantiated
extension list and the notebook pages, while every other entry is
instantiated and added as a page in its original registry order. -/
theorem ctor_failure_logged_excluded_others_in_order (registry : List Entry) :
    (WorldManagerUI_load_extensions registry).exts.map (fun e => (e.name, e.cls)) =
      registry.filter (fun p => !p.2.ctorRaises) ∧
    (WorldManagerUI_load_extensions registry).pages.map (fun p => p.title) =
      (registry.filter (fun p => !p.2.ctorRaises)).map Prod.fst ∧
    (WorldManagerUI_load_extensions registry).logs =
      (registry.filter (fun p => p.2.ctorRaises)).map
        (fun p => "Failed to load extension " ++ p.1) :=
  ⟨wm_load_go_exts_filter registry 0 true,
   wm_load_go_pages_titles registry 0 true,
   wm_load_go_logs registry 0 true⟩

theorem extClose_injective : Function.Injective CloseEvent.extClose := by
  intro a b h
  injection h

/-- Claim C4: `WorldManagerUI.close()` first calls `close()` on each
instantiated child extension, in list order, and then closes the world
handle; in the resulting call trace every child extension is closed exactly
once and the world is closed exactly once. -/
theorem close_closes_each_extension_once_then_world_once (registry : List Entry) :
    WorldManagerUI_close (WorldManagerUI_load_extensions registry).exts =
      ((WorldManagerUI_load_extensions registry).exts.map
        (fun e => CloseEvent.extClose e.id)) ++ [CloseEvent.worldClose] ∧
    (WorldManagerUI_close (WorldManagerUI_load_extensions registry).exts).count
      CloseEvent.worldClose = 1 ∧
    ∀ e ∈ (WorldManagerUI_load_extensions registry).exts,
      (WorldManagerUI_close (WorldManagerUI_load_extensions registry).exts).count
        (CloseEvent.extClose e.id) = 1 := by
  refine ⟨rfl, ?_, ?_⟩
  · rw [WorldManagerUI_close, List.count_append]
    have hz : ((WorldManagerUI_load_extensions registry).exts.map
        (fun e => CloseEvent.extClose e.id)).count CloseEvent.worldClose = 0 := by
      rw [List.count_eq_zero]
      intro hmem
      rcases List.mem_map.mp hmem with ⟨e, _, he⟩
      exact CloseEvent.noConfusion he
    rw [hz]
    rfl
  · intro e he
    rw [WorldManagerUI_close, List.count_append]
    have hone : ((WorldManagerUI_load_extensions registry).exts.map
        (fun e => CloseEvent.extClose e.id)).count (CloseEvent.extClose e.id) = 1 := by
      have hcomp : (WorldManagerUI_load_extensions registry).exts.map
          (fun e => CloseEvent.extClose e.id) =
          ((WorldManagerUI_load_extensions registry).exts.map ExtInst.id).map
            CloseEvent.extClose := by
        rw [List.map_map]
        rfl
      have hids : ((WorldManagerUI_load_extensions registry).exts.map ExtInst.id).Nodup :=
        wm_load_go_ids_nodup registry 0 true
      rw [hcomp,
        List.count_map_of_injective _ CloseEvent.extClose extClose_injective e.id]
      exact List.count_eq_one_of_mem hids (List.mem_map_of_mem ExtInst.id he)
    have hz : List.count (CloseEvent.extClose e.id) [CloseEvent.worldClose] = 0 := by
      rw [List.count_eq_zero]
      intro hmem
      rcases List.mem_singleton.mp hmem with h
      exact CloseEvent.noConfusion h
    rw [hone, hz]

/-- A registry two entries long, built from classes that instantiate
successfully. -/
def sampleRegistry : List Entry :=
  [("A", samplePluginClass), ("B", samplePluginClass)]

/-- Witness for claim C4 at the concrete registry `sampleRegistry`. -/
theorem close_closes_each_extension_once_then_world_once_witness :
    (WorldManagerUI_close (WorldManagerUI_load_extensions sampleRegistry).exts).count
      (CloseEvent.extClose 0) = 1 ∧
    (WorldManagerUI_close (WorldManagerUI_load_extensions sampleRegistry).exts).count
      CloseEvent.worldClose = 1 :=
  ⟨(close_closes_each_extension_once_then_world_once sampleRegistry).2.2
      { id := 0, name := "A", cls := samplePluginClass } (by decide),
   (close_closes_each_extension_once_then_world_once sampleRegistry).2.1⟩

/-- Claim C5: when `world_interface.load_world(path)` raises
`LoaderNoneMatched` inside `WorldManagerUI.__init__`, the partially
constructed UI is destroyed first (`superInit` then `destroyCall`, nothing
else), the very same exception then propagates to the caller, and no world
handle is left open. -/
theorem loader_none_matched_destroys_then_propagates
    (path msg : String) (registry : List Entry) :
    (WorldManagerUI_init path
        (Except.error (PyError.loaderNoneMatched msg)) registry).events =
      [InitEvent.superInit, InitEvent.destroyCall] ∧
    (WorldManagerUI_init path
        (Except.error (PyError.loaderNoneMatched msg)) registry).result =
      Except.error (PyError.loaderNoneMatched msg) ∧
    (WorldManagerUI_init path
        (Except.error (PyError.loaderNoneMatched msg)) registry).worldOpen = false :=
  ⟨rfl, rfl, rfl⟩

/-- An `export` dict with a valid `ui` class and a `name`, but no `v`. -/
def export_only_ui : ExportMap :=
  { v := none, name := some "OnlyUi", ui := some (UiVal.cls samplePluginClass)
    operation := none, inputs := none, wxoptions := none }

/-- A module whose `export` dict is `export_only_ui`. -/
def module_only_ui : PyModule := { exp := some export_only_ui }

/-- Claim C6 (counterexample): a module whose `export` mapping is missing
the required key `v` is not skipped: because it carries a valid `ui` class
it is registered — refuting "an export mapping missing required keys …
load_extensions skips that module". -/
theorem module_missing_v_still_registered_not_skipped :
    export_only_ui.v = none ∧
    processModule module_only_ui =
      Except.ok (some ("OnlyUi", samplePluginClass)) ∧
    (load_extensions fixed_extensions [ModuleLoad.loaded module_only_ui] []).1 =
      [("About", AboutExtension), ("OnlyUi", samplePluginClass)] :=
  ⟨rfl, rfl, rfl⟩

/-- Claim C6 (amended): `load_extensions` skips, without raising, any
discovered module that has no `export` attribute at all or whose `export`
mapping lacks the key `ui`, and discovery continues normally past it; a
module missing only `v`/`name` but carrying a valid `ui` is registered
rather than skipped. -/
theorem modules_without_export_or_ui_skipped_without_raising
    (m : PyModule) (acc : List Entry) (rest : List ModuleLoad)
    (h : m.exp = none ∨ ∃ e, m.exp = some e ∧ e.ui = none) :
    processModule m = Except.ok none ∧
    loadModulesAcc acc (ModuleLoad.loaded m :: rest) = loadModulesAcc acc rest := by
  have hpm : processModule m = Except.ok none := by
    obtain ⟨exp⟩ := m
    rcases h with h | ⟨e, he, hui⟩
    · simp only at h
      subst h
      rfl
    · simp only at he
      subst he
      simp [processModule, hui]
  exact ⟨hpm, by simp [loadModulesAcc, hpm]⟩

/-- A module with no `export` attribute. -/
def module_no_export : PyModule := { exp := none }

/-- Witness for the amended claim C6 at a module with no `export`. -/
theorem modules_without_export_or_ui_skipped_without_raising_witness :
    processModule module_no_export = Except.ok none ∧
    loadModulesAcc fixed_extensions [ModuleLoad.loaded module_no_export] =
      loadModulesAcc fixed_extensions [] :=
  modules_without_export_or_ui_skipped_without_raising
    module_no_export fixed_extensions [] (Or.inl rfl)

/-- A module exporting the name `"Dup"` with a valid class. -/
def module_dup_a : PyModule :=
  { exp := some
      { v := some 1, name := some "Dup"
        ui := some (UiVal.cls samplePluginClass)
        operation := none, inputs := none, wxoptions := none } }

/-- A second, distinct module also exporting the name `"Dup"`. -/
def module_dup_b : PyModule :=
  { exp := some
      { v := some 1, name := some "Dup"
        ui := some (UiVal.cls raisingPluginClass)
        operation := none, inputs := none, wxoptions := none } }

/-- Claim C7 (counterexample): two discovered modules exporting the same
name `"Dup"` are both appended to the registry, so after `load_extensions`
the registry's names are not pairwise distinct. -/
theorem duplicate_plugin_names_in_registry :
    ((load_extensions fixed_extensions
        [ModuleLoad.loaded module_dup_a, ModuleLoad.loaded module_dup_b] []).1.map
          Prod.fst) = ["About", "Dup", "Dup"] ∧
    ¬ ((load_extensions fixed_extensions
        [ModuleLoad.loaded module_dup_a, ModuleLoad.loaded module_dup_b] []).1.map
          Prod.fst).Nodup := by
  exact ⟨rfl, by decide⟩

/-- Claim C7 (amended): `load_extensions` enforces no name uniqueness: the
registry after a first load is exactly `_fixed_extensions` followed by the
recognized entries of the discovered modules in discovery order (up to the
first uncaught exception), duplicates included. -/
theorem load_extensions_appends_without_dedup
    (fixed : List Entry) (mods : List ModuleLoad) :
    load_extensions fixed mods [] =
      (fixed ++ collectEntries mods, firstLoadError mods) := by
  simp [load_extensions, loadModulesAcc_eq]

/-- Claim C8: the Fill plugin's `export` mapping binds `"operation"` to the external
`fill` function it imports and `"wxoptions"` to `show_ui`, and when
the dialog is confirmed with OK, `show_ui` returns an options dict whose
`'fill_block'` entry is the chosen block converted to the universal format
by the world's translation manager — so the picked block is what reaches
the external fill algorithm. -/
theorem fill_export_binds_fill_and_show_ui :
    fill_export.v = 1 ∧
    fill_export.name = "Fill" ∧
    fill_export.operation = fill ∧
    fill_export.inputs = ["src_box", "wxoptions"] ∧
    fill_export.wxoptions = show_ui ∧
    ∀ (w : World) (bd : BlockDefine) (options : PyDict),
      show_ui wx_ID_OK w bd options =
        [("fill_block",
          PyVal.block
            ((w.world_wrapper.translation_manager.get_version
                bd.platform bd.version).to_universal
              { namespace_ := bd.namespace_
                base_name := bd.base_name
                properties := bd.properties }))] := by
  refine ⟨rfl, rfl, rfl, rfl, rfl, fun w bd options => ?_⟩
  simp [show_ui]

/-- Claim C9: `load_extensions` is idempotent once the registry is
non-empty: the guard `if not _extensions` makes every later call return
with the registry exactly unchanged and no module imported. -/
theorem load_extensions_idempotent_when_nonempty
    (fixed cur : List Entry) (mods : List ModuleLoad) (h : cur ≠ []) :
    load_extensions fixed mods cur = (cur, none) := by
  cases cur with
  | nil => exact absurd rfl h
  | cons a l => simp [load_extensions]

/-- Witness for claim C9: a second call on the registry left by a first
load is a no-op. -/
theorem load_extensions_idempotent_when_nonempty_witness :
    load_extensions fixed_extensions [] fixed_extensions =
      (fixed_extensions, none) :=
  load_extensions_idempotent_when_nonempty fixed_extensions fixed_extensions []
    (by decide)

/-- Claim C10: for every input options dict handed to the Fill `show_ui`:
if the dialog is not confirmed with OK the very same dict is returned
unchanged, and if it is confirmed the returned dict has exactly the single
key `'fill_block'`, every key of the input dict being discarded. -/
theorem show_ui_frame_effect (w : World) (bd : BlockDefine) (options : PyDict) :
    (∀ r : Int, r ≠ wx_ID_OK → show_ui r w bd options = options) ∧
    (show_ui wx_ID_OK w bd options).map Prod.fst = ["fill_block"] := by
  constructor
  · intro r hr
    simp [show_ui, hr]
  · simp [show_ui]

/-- A world whose translation manager converts blocks with the identity. -/
def sampleWorld : World :=
  { world_wrapper :=
      { world_name := "New World"
        translation_manager :=
          { get_version := fun _ _ => { to_universal := fun b => b } } } }

/-- A concrete `BlockDefine` selection. -/
def sampleBlockDefine : BlockDefine :=
  { platform := "java"
    version := [1, 12, 2]
    namespace_ := "minecraft"
    base_name := "stone"
    properties := [] }

/-- A concrete input options dict with a key that must be discarded. -/
def sampleOptions : PyDict := [("old_key", PyVal.num 3)]

/-- Witness for claim C10 at a cancelled dialog (`ShowModal` returned `0`)
and at a confirmed one. -/
theorem show_ui_frame_effect_witness :
    show_ui 0 sampleWorld sampleBlockDefine sampleOptions = sampleOptions ∧
    (show_ui wx_ID_OK sampleWorld sampleBlockDefine sampleOptions).map
      Prod.fst = ["fill_block"] :=
  ⟨(show_ui_frame_effect sampleWorld sampleBlockDefine sampleOptions).1 0
      (by decide),
   (show_ui_frame_effect sampleWorld sampleBlockDefine sampleOptions).2⟩

end AmuletMapEditor
